import Mathlib

set_option autoImplicit false

namespace Visplot

/-- Values that appear on the right-hand side of assignments in the two
Sphinx configuration files: strings, integers, booleans, lists of strings. -/
inductive Value where
  | str (s : String)
  | int (n : Int)
  | bool (b : Bool)
  | strList (l : List String)
  deriving DecidableEq, Repr

/-- Right-hand-side expressions of the configuration language: the literal
forms that occur in the files, plus variable references, which the
evaluator supports but the two files never use. -/
inductive Expr where
  | litStr (s : String)
  | litInt (n : Int)
  | litBool (b : Bool)
  | litStrList (l : List String)
  | name (x : String)
  deriving DecidableEq, Repr

/-- A configuration file statement: a top-level assignment of an expression
to a variable name. -/
inductive Stmt where
  | assign (x : String) (e : Expr)
  deriving DecidableEq, Repr

/-- A binding environment: an association list from names to values, with
later (leftmost) bindings shadowing earlier ones. -/
abbrev Env := List (String × Value)

/-- Evaluate an expression in an environment; a reference to an unbound
name is an error. -/
def evalExpr (ρ : Env) : Expr → Option Value
  | .litStr s => some (.str s)
  | .litInt n => some (.int n)
  | .litBool b => some (.bool b)
  | .litStrList l => some (.strList l)
  | .name x => List.lookup x ρ

/-- Evaluate a list of statements from an initial environment, threading the
environment through and failing if any expression fails. -/
def evalStmts (ρ : Env) : List Stmt → Option Env
  | [] => some ρ
  | .assign x e :: rest =>
      match evalExpr ρ e with
      | some v => evalStmts ((x, v) :: ρ) rest
      | none => none

/-- Names assigned by a list of statements, in order of assignment. -/
def boundNames : List Stmt → List String
  | [] => []
  | .assign x _ :: rest => x :: boundNames rest

/-- The value a configuration file binds to a name: evaluate the file from
the empty environment and look the name up. -/
def lookupVar (ss : List Stmt) (x : String) : Option Value :=
  (evalStmts [] ss).bind fun ρ => List.lookup x ρ

/-- The statements of src/docs/conf.py, in source order. -/
def docs_conf : List Stmt := [
  .assign "project" (.litStr "Visplot"),
  .assign "copyright" (.litStr "2026, irl, ega"),
  .assign "author" (.litStr "irl, ega"),
  .assign "extensions" (.litStrList [
    "sphinx.ext.autosectionlabel",
    "sphinx.ext.autodoc",
    "sphinx.ext.autosummary",
    "sphinx.ext.doctest",
    "sphinx.ext.todo",
    "sphinx.ext.mathjax",
    "sphinx.ext.ifconfig",
    "sphinx.ext.viewcode"]),
  .assign "templates_path" (.litStrList ["_templates"]),
  .assign "exclude_patterns" (.litStrList ["_build", "Thumbs.db", ".DS_Store"]),
  .assign "autosectionlabel_prefix_document" (.litBool true),
  .assign "autosectionlabel_maxdepth" (.litInt 4),
  .assign "html_theme" (.litStr "sphinx_rtd_theme"),
  .assign "html_logo" (.litStr "figs/visplot-icon.png"),
  .assign "html_title" (.litStr "Visplot"),
  .assign "html_short_title" (.litStr "Visplot"),
  .assign "html_static_path" (.litStrList ["_static"]),
  .assign "html_css_files" (.litStrList ["visplot.css"])]

/-- The statements of src/readthedocs/conf.py, in source order. -/
def readthedocs_conf : List Stmt := [
  .assign "project" (.litStr "Visplot"),
  .assign "copyright" (.litStr "2026, irl, ega"),
  .assign "author" (.litStr "irl, ega"),
  .assign "extensions" (.litStrList [
    "sphinx.ext.autosectionlabel",
    "sphinx.ext.autodoc",
    "sphinx.ext.autosummary",
    "sphinx.ext.doctest",
    "sphinx.ext.todo",
    "sphinx.ext.mathjax",
    "sphinx.ext.ifconfig",
    "sphinx.ext.viewcode"]),
  .assign "templates_path" (.litStrList ["_templates"]),
  .assign "exclude_patterns" (.litStrList ["_build", "Thumbs.db", ".DS_Store"]),
  .assign "autosectionlabel_prefix_document" (.litBool true),
  .assign "autosectionlabel_maxdepth" (.litInt 4),
  .assign "html_theme" (.litStr "sphinx_rtd_theme"),
  .assign "html_logo" (.litStr "figs/visplot-icon.png"),
  .assign "html_title" (.litStr "Visplot"),
  .assign "html_short_title" (.litStr "Visplot"),
  .assign "html_static_path" (.litStrList ["_static"])]

/-- Whether an expression is a literal (no variable reference). -/
def isLit : Expr → Bool
  | .name _ => false
  | _ => true

/-- Whether a statement assigns a literal expression. -/
def stmtIsLit : Stmt → Bool
  | .assign _ e => isLit e

/-- The value of a literal expression, with a junk default on the
non-literal constructor; only used under an isLit hypothesis. -/
def litVal : Expr → Value
  | .litStr s => .str s
  | .litInt n => .int n
  | .litBool b => .bool b
  | .litStrList l => .strList l
  | .name _ => .str ""

/-- The environment produced by pushing the literal values of a statement
list onto an initial environment. -/
def accBind : List Stmt → Env → Env
  | [], ρ => ρ
  | .assign x e :: rest, ρ => accBind rest ((x, litVal e) :: ρ)

theorem evalStmts_all_lit :
    ∀ (ss : List Stmt) (ρ : Env), ss.all stmtIsLit = true →
      evalStmts ρ ss = some (accBind ss ρ) := by
  intro ss
  induction ss with
  | nil => intro ρ _; rfl
  | cons s rest ih =>
    intro ρ h
    cases s with
    | assign x e =>
      rw [List.all_cons, Bool.and_eq_true] at h
      cases e with
      | litStr s => exact ih _ h.2
      | litInt n => exact ih _ h.2
      | litBool b => exact ih _ h.2
      | litStrList l => exact ih _ h.2
      | name y => simp [stmtIsLit, isLit] at h

theorem lookup_cons_ne (x y : String) (v : Value) (ρ : Env) (h : x ≠ y) :
    List.lookup x ((y, v) :: ρ) = List.lookup x ρ := by
  have hb : (x == y) = false := beq_eq_false_iff_ne.mpr h
  simp [List.lookup, hb]

theorem lookup_accBind_unbound :
    ∀ (ss : List Stmt) (ρ : Env) (x : String), x ∉ boundNames ss →
      List.lookup x (accBind ss ρ) = List.lookup x ρ := by
  intro ss
  induction ss with
  | nil => intro ρ x _; rfl
  | cons s rest ih =>
    intro ρ x h
    cases s with
    | assign y e =>
      rw [boundNames, List.mem_cons, not_or] at h
      rw [accBind, ih _ x h.2, lookup_cons_ne x y _ ρ h.1]

theorem lookup_accBind_bound :
    ∀ (ss : List Stmt) (ρ1 ρ2 : Env) (x : String), x ∈ boundNames ss →
      List.lookup x (accBind ss ρ1) = List.lookup x (accBind ss ρ2) := by
  intro ss
  induction ss with
  | nil => intro ρ1 ρ2 x h; cases h
  | cons s rest ih =>
    intro ρ1 ρ2 x h
    cases s with
    | assign y e =>
      by_cases hx : x ∈ boundNames rest
      · exact ih _ _ x hx
      · rw [boundNames, List.mem_cons] at h
        have hxy : x = y := h.resolve_right hx
        subst hxy
        simp only [accBind]
        rw [lookup_accBind_unbound rest _ x hx, lookup_accBind_unbound rest _ x hx]
        simp [List.lookup]

/-- Whether a value is a string. -/
def isStr : Value → Bool
  | .str _ => true
  | _ => false

/-- Whether a value is an integer. -/
def isInt : Value → Bool
  | .int _ => true
  | _ => false

/-- Whether a value is a boolean. -/
def isBool : Value → Bool
  | .bool _ => true
  | _ => false

/-- Whether a value is a list of strings. -/
def isStrList : Value → Bool
  | .strList _ => true
  | _ => false

/-- The external documentation tool's schema, as the specification
describes it: which type each configuration variable must carry. -/
def schemaOk (x : String) (v : Value) : Bool :=
  if ["project", "copyright", "author", "html_theme", "html_logo",
      "html_title", "html_short_title"].contains x then isStr v
  else if x == "extensions" then isStrList v
  else if ["templates_path", "exclude_patterns", "html_static_path",
      "html_css_files"].contains x then isStrList v
  else if x == "autosectionlabel_prefix_document" then isBool v
  else if x == "autosectionlabel_maxdepth" then isInt v
  else false

/-- Whether every binding produced by evaluating a file conforms to the
schema. -/
def fileSchemaOk (ss : List Stmt) : Bool :=
  match evalStmts [] ss with
  | some ρ => ρ.all fun p => schemaOk p.1 p.2
  | none => false

/-- Whether every name bound by the first file that the second file also
binds carries the same value in both files. -/
def valuesAgreeOn (ss1 ss2 : List Stmt) : Bool :=
  (boundNames ss1).all fun x =>
    !((boundNames ss2).contains x) || decide (lookupVar ss1 x = lookupVar ss2 x)

/-- The list bound to the extensions variable by a file, or the empty list
when the file binds it to something other than a string list. -/
def extList (ss : List Stmt) : List String :=
  match lookupVar ss "extensions" with
  | some (.strList l) => l
  | _ => []

/-- Whether the string s starts with the string p. -/
def strStartsWith (p s : String) : Bool :=
  s.toList.take p.toList.length == p.toList

/-- Claim C1 fails as stated: the two files do not bind the same set of
variables, because docs/conf.py binds html_css_files and
readthedocs/conf.py does not. -/
theorem c1_counterexample :
    ¬ ((∀ x : String, x ∈ boundNames docs_conf ↔ x ∈ boundNames readthedocs_conf) ∧
       (∀ (x : String) (v w : Value), lookupVar docs_conf x = some v →
         lookupVar readthedocs_conf x = some w → v = w)) := by
  intro h
  have h1 := (h.1 "html_css_files").1 (by decide)
  exact absurd h1 (by decide)

/-- Claim C1, amended: the two files are near-identical in that every
variable bound by both is bound to the same value in both, and their
bound-name sets differ exactly in html_css_files, which only docs/conf.py
binds. -/
theorem c1_near_identical :
    valuesAgreeOn docs_conf readthedocs_conf = true ∧
    valuesAgreeOn readthedocs_conf docs_conf = true ∧
    (boundNames docs_conf).contains "html_css_files" = true ∧
    (boundNames readthedocs_conf).contains "html_css_files" = false ∧
    (boundNames docs_conf).filter (fun x => !(x == "html_css_files")) =
      boundNames readthedocs_conf := by decide

/-- Claim C2: both files bind extensions to the same ordered list of
exactly eight sphinx.ext identifiers, in the stated order. -/
theorem c2_extensions_value :
    lookupVar docs_conf "extensions" = some (Value.strList [
      "sphinx.ext.autosectionlabel",
      "sphinx.ext.autodoc",
      "sphinx.ext.autosummary",
      "sphinx.ext.doctest",
      "sphinx.ext.todo",
      "sphinx.ext.mathjax",
      "sphinx.ext.ifconfig",
      "sphinx.ext.viewcode"]) ∧
    lookupVar readthedocs_conf "extensions" = lookupVar docs_conf "extensions" := by
  decide

/-- Claim C3: both files bind project, copyright and author to the three
identical string values. -/
theorem c3_project_metadata :
    lookupVar docs_conf "project" = some (Value.str "Visplot") ∧
    lookupVar docs_conf "copyright" = some (Value.str "2026, irl, ega") ∧
    lookupVar docs_conf "author" = some (Value.str "irl, ega") ∧
    lookupVar readthedocs_conf "project" = some (Value.str "Visplot") ∧
    lookupVar readthedocs_conf "copyright" = some (Value.str "2026, irl, ega") ∧
    lookupVar readthedocs_conf "author" = some (Value.str "irl, ega") := by decide

/-- Claim C4: in each file every configuration name is assigned exactly
once, so the list of bound names has no duplicates. -/
theorem c4_single_assignment :
    (boundNames docs_conf).Nodup ∧ (boundNames readthedocs_conf).Nodup := by decide

/-- Claim C5: every binding produced by evaluating either file conforms to
the external tool's schema of types for each configuration variable. -/
theorem c5_schema_conformance :
    fileSchemaOk docs_conf = true ∧ fileSchemaOk readthedocs_conf = true := by decide

/-- Claim C6: evaluating either file as a sequence of assignments succeeds
without error and yields a final binding environment. -/
theorem c6_evaluation_succeeds :
    (evalStmts [] docs_conf).isSome = true ∧
    (evalStmts [] readthedocs_conf).isSome = true := by decide

/-- Claim C7: every statement of either file assigns a literal value, and
evaluation is deterministic and input-independent: from any two initial
environments, evaluation succeeds and yields the same value for every
name the file binds. -/
theorem c7_literal_deterministic :
    docs_conf.all stmtIsLit = true ∧ readthedocs_conf.all stmtIsLit = true ∧
    ∀ (ρ1 ρ2 : Env) (x : String),
      (evalStmts ρ1 docs_conf).isSome = true ∧
      (evalStmts ρ1 readthedocs_conf).isSome = true ∧
      (x ∈ boundNames docs_conf →
        (evalStmts ρ1 docs_conf).bind (List.lookup x) =
          (evalStmts ρ2 docs_conf).bind (List.lookup x)) ∧
      (x ∈ boundNames readthedocs_conf →
        (evalStmts ρ1 readthedocs_conf).bind (List.lookup x) =
          (evalStmts ρ2 readthedocs_conf).bind (List.lookup x)) := by
  refine ⟨rfl, rfl, fun ρ1 ρ2 x => ?_⟩
  rw [evalStmts_all_lit docs_conf ρ1 rfl, evalStmts_all_lit docs_conf ρ2 rfl,
    evalStmts_all_lit readthedocs_conf ρ1 rfl, evalStmts_all_lit readthedocs_conf ρ2 rfl]
  refine ⟨rfl, rfl, fun hx => ?_, fun hx => ?_⟩
  · simpa using lookup_accBind_bound docs_conf ρ1 ρ2 x hx
  · simpa using lookup_accBind_bound readthedocs_conf ρ1 ρ2 x hx

/-- Witness for claim C7 at concrete inputs: the name project is bound by
docs/conf.py, and evaluating the file from a nonempty and from the empty
initial environment yields the same value for it. -/
theorem c7_witness :
    "project" ∈ boundNames docs_conf ∧
    (evalStmts [("html_theme", Value.str "other")] docs_conf).bind (List.lookup "project") =
      (evalStmts [] docs_conf).bind (List.lookup "project") :=
  ⟨by decide,
    (c7_literal_deterministic.2.2 [("html_theme", Value.str "other")] [] "project").2.2.1
      (by decide)⟩

/-- Claim C8: docs/conf.py binds html_css_files to the single-element list
visplot.css, readthedocs/conf.py never binds it, the bound names of
readthedocs/conf.py are exactly those of docs/conf.py minus
html_css_files, and every name bound by both carries equal values. -/
theorem c8_css_only_difference :
    lookupVar docs_conf "html_css_files" = some (Value.strList ["visplot.css"]) ∧
    lookupVar readthedocs_conf "html_css_files" = none ∧
    (boundNames readthedocs_conf).all
      (fun x => (boundNames docs_conf).contains x) = true ∧
    (boundNames docs_conf).all
      (fun x => x == "html_css_files" || (boundNames readthedocs_conf).contains x) = true ∧
    (boundNames readthedocs_conf).all
      (fun x => decide (lookupVar docs_conf x = lookupVar readthedocs_conf x)) = true := by
  decide

/-- Claim C9: in both files the extensions list has eight pairwise distinct
elements, each starting with the sphinx.ext. prefix, and the two lists
coincide. -/
theorem c9_extensions_wellformed :
    (extList docs_conf).length = 8 ∧
    (extList docs_conf).Nodup ∧
    (extList docs_conf).all (strStartsWith "sphinx.ext.") = true ∧
    extList readthedocs_conf = extList docs_conf := by decide

/-- Claim C10: both files bind autosectionlabel_prefix_document to True and
autosectionlabel_maxdepth to the integer 4. -/
theorem c10_autosectionlabel_settings :
    lookupVar docs_conf "autosectionlabel_prefix_document" = some (Value.bool true) ∧
    lookupVar docs_conf "autosectionlabel_maxdepth" = some (Value.int 4) ∧
    lookupVar readthedocs_conf "autosectionlabel_prefix_document" = some (Value.bool true) ∧
    lookupVar readthedocs_conf "autosectionlabel_maxdepth" = some (Value.int 4) := by decide

end Visplot
